import Mathlib

/-!
Verification of the qbo-webhook-mapper core against its specification.

Shallow embedding of:
* the API-key service (`backend/src/services/apiKeyService.ts`),
* the API-key middleware (`backend/src/middleware/apiKeyAuth.ts`),
* the QBO proxy query engine (`qboProxyService`),
* the OAuth token manager `executeWithTokenRefresh` (the file
  `tokenManager.ts` is not part of the sources at hand, so it is modelled
  from the spec, section 4.2).

Timestamps are milliseconds since epoch, modelled as `Nat` (the code uses
`Date.now()` / `Date` comparisons).  The SHA-256 hash used for key storage
is modelled as an abstract function parameter `hashFn : String → String`;
nothing in the verified logic depends on the concrete hash.
-/

namespace QboMapper

/-- Milliseconds since epoch, as used by `Date.now()` in the code. -/
abbrev Time := Nat

/-- Whether `p` is a prefix of `s` (the `String.startsWith` of the code, stated
over the character lists so that it evaluates in the kernel). -/
def strStartsWith (s p : String) : Bool :=
  p.data.isPrefixOf s.data

/-- Whether `pat` occurs as a contiguous substring of `cs`. -/
def containsSub (cs pat : List Char) : Bool :=
  match cs with
  | [] => pat.isEmpty
  | _ :: rest => pat.isPrefixOf cs || containsSub rest pat

/-- The string `s` contains `pat` as a substring (the
`String.includes` test of the code). -/
def containsText (s pat : String) : Bool :=
  containsSub s.data pat.data

/-- The `ApiKeyType` from `backend/src/types/apiKey.ts`. -/
inductive ApiKeyType where
  | tenant
  | global_admin
deriving DecidableEq, Repr

/-- The `ApiKey` record from `backend/src/types/apiKey.ts` (display-only
fields that no verified function reads are omitted). -/
structure ApiKey where
  key_id : String
  organization_id : Option String
  key_hash : String
  name : String
  key_type : ApiKeyType
  is_active : Bool
  created_at : Time
  expires_at : Option Time
  revoked_at : Option Time
  grace_period_ends_at : Option Time
deriving DecidableEq, Repr

/-- The API-key table of the data service, modelled as a list of records. -/
abbrev KeyStore := List ApiKey

/-- The `getApiKeyByHash` of the data service: look a key up by its stored hash. -/
def getApiKeyByHash (store : KeyStore) (h : String) : Option ApiKey :=
  store.find? (fun k => k.key_hash == h)

/-- The `getApiKeyById` of the data service. -/
def getApiKeyById (store : KeyStore) (id : String) : Option ApiKey :=
  store.find? (fun k => k.key_id == id)

/-- The `updateApiKey` of the data service: apply a field update to the record
with the given id. -/
def updateApiKey (store : KeyStore) (id : String) (f : ApiKey → ApiKey) : KeyStore :=
  store.map (fun k => if k.key_id == id then f k else k)

/-- The `ApiKeyValidationResult` from `backend/src/types/apiKey.ts`. -/
structure ApiKeyValidationResult where
  valid : Bool
  key : Option ApiKey := none
  error : Option String := none
deriving DecidableEq, Repr

/-- The `validateApiKey` from `backend/src/services/apiKeyService.ts`.

The checks, in source order: key format (`qbo_live_` and non-empty),
hash lookup, `is_active`, `revoked_at`, `expires_at < now`.  The
fire-and-forget `last_used_at` update has no effect on the result and is
not modelled.  Note that `grace_period_ends_at` is never read here. -/
def validateApiKey (hashFn : String → String) (store : KeyStore) (now : Time)
    (key : String) : ApiKeyValidationResult :=
  if key = "" || !(strStartsWith key "qbo_live_") then
    { valid := false, error := some "Invalid key format" }
  else
    let keyHash := hashFn key
    match getApiKeyByHash store keyHash with
    | none => { valid := false, error := some "Invalid API key" }
    | some apiKey =>
      if !apiKey.is_active then
        { valid := false, error := some "API key is inactive" }
      else if apiKey.revoked_at.isSome then
        { valid := false, error := some "API key has been revoked" }
      else
        match apiKey.expires_at with
        | some t =>
          if t < now then
            { valid := false, error := some "API key has expired" }
          else
            { valid := true, key := some apiKey }
        | none => { valid := true, key := some apiKey }

/-- The `revokeApiKey` from `apiKeyService.ts`: deactivate and stamp the key
(the not-found guard is handled by the caller in `rotateApiKey`). -/
def revokeApiKey (store : KeyStore) (keyId : String) (now : Time) : KeyStore :=
  updateApiKey store keyId (fun k =>
    { k with is_active := false, revoked_at := some now })

/-- The `rotateApiKey` from `apiKeyService.ts`.

`newSecret`/`newKeyId` stand for the random key material produced inside
`generateApiKey`.  The new record copies the organization, name and type
of the existing key, and `dbCreateApiKey` appends it to the table; with a
positive grace period the old key only receives `grace_period_ends_at`,
otherwise it is revoked immediately. -/
def rotateApiKey (hashFn : String → String) (store : KeyStore) (keyId : String)
    (gracePeriodMinutes : Nat) (now : Time) (newSecret newKeyId : String) :
    Except String KeyStore :=
  match getApiKeyById store keyId with
  | none => .error "API key not found"
  | some existingKey =>
    if !existingKey.is_active then
      .error "Cannot rotate an inactive key"
    else
      let newKey : ApiKey :=
        { key_id := newKeyId
          organization_id := existingKey.organization_id
          key_hash := hashFn newSecret
          name := existingKey.name
          key_type := existingKey.key_type
          is_active := true
          created_at := now
          expires_at := none
          revoked_at := none
          grace_period_ends_at := none }
      let store1 := store ++ [newKey]
      if gracePeriodMinutes > 0 then
        let gracePeriodEnds := now + gracePeriodMinutes * 60 * 1000
        .ok (updateApiKey store1 keyId (fun k =>
          { k with grace_period_ends_at := some gracePeriodEnds }))
      else
        .ok (revokeApiKey store1 keyId now)

/-- The `ApiKeyContext` from `backend/src/types/apiKey.ts` (the fields the
middleware guards read; the permission set and rate-limit tier are not
consulted by any verified function). -/
structure ApiKeyContext where
  key_id : String
  organization_id : Option String
  key_type : ApiKeyType
deriving DecidableEq, Repr

/-- The `buildKeyContext` from `backend/src/middleware/apiKeyAuth.ts`. -/
def buildKeyContext (apiKey : ApiKey) : ApiKeyContext :=
  { key_id := apiKey.key_id
    organization_id := apiKey.organization_id
    key_type := apiKey.key_type }

/-- The parts of the express request the middleware reads: the
`x-api-key` header, the `api_key` query parameter, and the
`organization_id` of the tenant resolved onto the route (absent when no
tenant was resolved or it carries no organization id). -/
structure MwRequest where
  headerKey : Option String := none
  queryKey : Option String := none
  routeOrgId : Option String := none
deriving DecidableEq, Repr

/-- The `extractApiKey` from `apiKeyAuth.ts`: the header wins; the query
parameter is a fallback.  Empty strings are falsy in the source. -/
def extractApiKey (req : MwRequest) : Option String :=
  match req.headerKey with
  | some h => if h ≠ "" then some h else
      match req.queryKey with
      | some q => if q ≠ "" then some q else none
      | none => none
  | none =>
      match req.queryKey with
      | some q => if q ≠ "" then some q else none
      | none => none

/-- Outcome of one express middleware: either it responds (status,
machine-readable code, error message) and the chain stops, or it calls
`next()`, here carrying the `ApiKeyContext` it attached when it did. -/
inductive MwOutcome where
  | respond (status : Nat) (code : String) (errMsg : String)
  | proceed (ctx : ApiKeyContext)
deriving DecidableEq, Repr

/-- The `requireApiKey` from `apiKeyAuth.ts`: extract the key, validate it,
check the allowed key types, then attach the context and call `next()`.
Audit logging is fire-and-forget and not modelled. -/
def requireApiKey (allowedTypes : Option (List ApiKeyType))
    (hashFn : String → String) (store : KeyStore) (now : Time)
    (req : MwRequest) : MwOutcome :=
  match extractApiKey req with
  | none => .respond 401 "ERR_API_KEY_REQUIRED" "API key required"
  | some key =>
    let validation := validateApiKey hashFn store now key
    match validation.key with
    | none =>
        .respond 401 "ERR_INVALID_API_KEY" (validation.error.getD "Invalid API key")
    | some vkey =>
      if !validation.valid then
        .respond 401 "ERR_INVALID_API_KEY" (validation.error.getD "Invalid API key")
      else
        match allowedTypes with
        | some types =>
          if !(types.contains vkey.key_type) then
            .respond 403 "ERR_KEY_TYPE_NOT_ALLOWED" "API key type not allowed for this endpoint"
          else
            .proceed (buildKeyContext vkey)
        | none => .proceed (buildKeyContext vkey)

/-- Outcome of the organization guard: it does not attach anything. -/
inductive GuardOutcome where
  | respond (status : Nat) (code : String)
  | proceed
deriving DecidableEq, Repr

/-- The `requireKeyForOrganization` from `apiKeyAuth.ts`.

`ctx` is `req.apiKeyContext` (set by `requireApiKey`), `routeOrgId` is
`req.tenant?.organization_id`.  Source order: missing context → 401;
global-admin key → pass; no route organization → pass; organization
mismatch → 403 `ERR_KEY_ORG_MISMATCH`; otherwise pass. -/
def requireKeyForOrganization (ctx : Option ApiKeyContext)
    (routeOrgId : Option String) : GuardOutcome :=
  match ctx with
  | none => .respond 401 "ERR_NO_KEY_CONTEXT"
  | some c =>
    if c.key_type = .global_admin then
      .proceed
    else
      match routeOrgId with
      | none => .proceed
      | some o =>
        if c.organization_id ≠ some o then
          .respond 403 "ERR_KEY_ORG_MISMATCH"
        else
          .proceed

/-- Number of upstream (Proxy Query Engine) calls made by the proxy route
when the organization guard runs before the handler: a middleware that
responds ends the chain, so the handler — and with it every upstream
call — is skipped. -/
def guardedUpstreamCalls (ctx : Option ApiKeyContext) (routeOrgId : Option String)
    (handlerUpstreamCalls : Nat) : Nat :=
  match requireKeyForOrganization ctx routeOrgId with
  | .respond _ _ => 0
  | .proceed => handlerUpstreamCalls

/-- Connection status of a stored OAuth credential (spec section 3). -/
inductive CredStatus where
  | active
  | expired
  | error
  | revoked
  | disconnected
  | refresh_failed
deriving DecidableEq, Repr

/-- The per-tenant OAuth credential record (spec section 3; the fields the
token manager reads). -/
structure Credential where
  realmId : String
  accessToken : String
  refreshToken : String
  accessExpiresAt : Option Time
  status : CredStatus
  is_active : Bool
deriving DecidableEq, Repr

/-- The token-manager error taxonomy (spec section 4.2). -/
inductive TokenErrorCode where
  | NOT_CONNECTED
  | TOKEN_EXPIRED
  | TOKEN_REVOKED
  | REFRESH_FAILED
  | NETWORK_ERROR
deriving DecidableEq, Repr

/-- A classified token-manager failure: the error code together with the
`needsReconnect` flag surfaced to callers. -/
structure TMFailure where
  errorCode : TokenErrorCode
  needsReconnect : Bool
deriving DecidableEq, Repr

/-- Result of the token validity check (spec section 4.1). -/
inductive TokenValidity where
  | valid
  | expiring_soon
  | expired
deriving DecidableEq, Repr

/-- The 5-minute refresh safety buffer (`TOKEN_REFRESH_BUFFER_MS`). -/
def TOKEN_REFRESH_BUFFER_MS : Nat := 5 * 60 * 1000

/-- Modelled from the spec: the Token Validity Checker of section 4.1
(`tokenManager.ts` is not among the sources).  A credential with no
access-token expiry is `expired` (fail closed); one expiring within the
buffer is `expiring_soon`. -/
def checkTokenValidity (c : Credential) (now : Time) : TokenValidity :=
  match c.accessExpiresAt with
  | none => .expired
  | some t =>
    if t ≤ now then .expired
    else if t ≤ now + TOKEN_REFRESH_BUFFER_MS then .expiring_soon
    else .valid

/-- Modelled from the spec: "network/timeout-style errors" of section 4.2
step 6 — the refresh failure text looks like a connectivity problem. -/
def isNetworkStyleError (s : String) : Bool :=
  containsText s "network" || containsText s "timeout" ||
    containsText s "ECONN" || containsText s "ETIMEDOUT"

/-- Modelled from the spec: refresh-failure classification, section 4.2
step 6 (`tokenManager.ts` is not among the sources).  Text containing
`invalid_grant` or `revoked` → `TOKEN_REVOKED`; network/timeout-style →
`NETWORK_ERROR`; anything else → `REFRESH_FAILED`. -/
def classifyRefreshFailure (errText : String) : TokenErrorCode :=
  if containsText errText "invalid_grant" || containsText errText "revoked" then
    .TOKEN_REVOKED
  else if isNetworkStyleError errText then
    .NETWORK_ERROR
  else
    .REFRESH_FAILED

/-- Modelled from the spec: the credential-store write performed on a
classified refresh failure (section 4.2 step 6): `TOKEN_REVOKED` sets
status `revoked` and clears the active flag; `NETWORK_ERROR` leaves the
credential untouched; `REFRESH_FAILED` sets status `refresh_failed`. -/
def applyRefreshFailure (c : Credential) (code : TokenErrorCode) : Credential :=
  match code with
  | .TOKEN_REVOKED => { c with status := .revoked, is_active := false }
  | .NETWORK_ERROR => c
  | .REFRESH_FAILED => { c with status := .refresh_failed }
  | _ => c

/-- Modelled from the spec: the `needsReconnect` flag attached to each
failure class (sections 4.2 and 8: `NOT_CONNECTED`, `TOKEN_EXPIRED`,
`TOKEN_REVOKED`, `REFRESH_FAILED` carry `true`; `NETWORK_ERROR` is
transient and carries `false`). -/
def needsReconnectFor (code : TokenErrorCode) : Bool :=
  match code with
  | .NETWORK_ERROR => false
  | _ => true

/-- Outcome of one OAuth refresh-token exchange: a new token pair with its
expiry, or a failure described by the upstream error text. -/
inductive RefreshResult where
  | ok (accessToken refreshToken : String) (accessExpiresAt : Time)
  | failure (errText : String)
deriving DecidableEq, Repr

/-- Modelled from the spec: persisting a successful refresh (section 4.2
step 7) — new token pair, new expiry, status `active`. -/
def applyRefreshSuccess (c : Credential) (at' rt : String) (exp : Time) : Credential :=
  { c with accessToken := at', refreshToken := rt,
           accessExpiresAt := some exp, status := .active }

/-- One upstream HTTP response: status code plus parsed body. -/
structure UpstreamResponse (β : Type) where
  status : Nat
  body : β
deriving DecidableEq, Repr

/-- Result surfaced by the token manager to its caller. -/
inductive TMResult (ρ : Type) where
  | ok (data : ρ)
  | err (f : TMFailure)
deriving DecidableEq, Repr

/-- Full outcome of one `executeWithTokenRefresh` run: the result, the
number of upstream calls made, and the credential as stored afterwards. -/
structure TMOutcome (ρ : Type) where
  result : TMResult ρ
  upstreamCalls : Nat
  cred : Option Credential

/-- Modelled from the spec: the attempt loop of `executeWithTokenRefresh`
(section 4.2 steps 3–5), entered with a usable credential `c1` after
`refreshesUsed` refreshes.  Execute the call; on a 401 first answer force
a refresh and retry exactly once; a second 401 is terminal
(`TOKEN_EXPIRED`, `needsReconnect = true`); a failing forced refresh is
classified and persisted. -/
def runUpstreamAttempts {β ρ : Type} (c1 : Credential)
    (call : Nat → String → String → UpstreamResponse β)
    (parse : UpstreamResponse β → ρ)
    (refresh : Nat → RefreshResult) (refreshesUsed : Nat) : TMOutcome ρ :=
  let r1 := call 0 c1.accessToken c1.realmId
  if r1.status ≠ 401 then
    ⟨.ok (parse r1), 1, some c1⟩
  else
    match refresh refreshesUsed with
    | .failure errText =>
      let code := classifyRefreshFailure errText
      ⟨.err ⟨code, needsReconnectFor code⟩, 1,
        some (applyRefreshFailure c1 code)⟩
    | .ok at' rt exp =>
      let c2 := applyRefreshSuccess c1 at' rt exp
      let r2 := call 1 c2.accessToken c2.realmId
      if r2.status ≠ 401 then
        ⟨.ok (parse r2), 2, some c2⟩
      else
        ⟨.err ⟨.TOKEN_EXPIRED, true⟩, 2, some c2⟩

/-- Modelled from the spec: `executeWithTokenRefresh` (section 4.2;
`tokenManager.ts` is not among the sources, only its audit description
and callers are).

`call i tok realm` is the caller-supplied upstream call on attempt `i`
with access token `tok`; `parse` turns the final HTTP response into the
typed result; `refresh j` is the `j`-th refresh-token exchange of this
run.  Steps: (1) absent / inactive / revoked / disconnected credential →
`NOT_CONNECTED`, no upstream call; (2) proactive refresh when the token
is not `valid`; (3)–(5) the attempt loop `runUpstreamAttempts`;
(6) refresh failures are classified and persisted by
`classifyRefreshFailure` / `applyRefreshFailure`; (7) a successful
refresh is persisted before the retried call. -/
def executeWithTokenRefresh {β ρ : Type} (cred : Option Credential) (now : Time)
    (call : Nat → String → String → UpstreamResponse β)
    (parse : UpstreamResponse β → ρ)
    (refresh : Nat → RefreshResult) : TMOutcome ρ :=
  match cred with
  | none => ⟨.err ⟨.NOT_CONNECTED, true⟩, 0, none⟩
  | some c =>
    if !c.is_active || c.status = .revoked || c.status = .disconnected then
      ⟨.err ⟨.NOT_CONNECTED, true⟩, 0, some c⟩
    else
      if checkTokenValidity c now ≠ .valid then
        match refresh 0 with
        | .failure errText =>
          let code := classifyRefreshFailure errText
          ⟨.err ⟨code, needsReconnectFor code⟩, 0,
            some (applyRefreshFailure c code)⟩
        | .ok at' rt exp =>
          runUpstreamAttempts (applyRefreshSuccess c at' rt exp) call parse refresh 1
      else
        runUpstreamAttempts c call parse refresh 0

/-- The `QboEntityType` from the QBO proxy service. -/
inductive QboEntityType where
  | customers
  | items
  | invoices
  | accounts
  | vendors
deriving DecidableEq, Repr

/-- The `ENTITY_MAP`: entity type → QBO API entity name. -/
def entityMapName : QboEntityType → String
  | .customers => "Customer"
  | .items => "Item"
  | .invoices => "Invoice"
  | .accounts => "Account"
  | .vendors => "Vendor"

/-- The `SEARCH_FIELDS`: field searched per entity type. -/
def searchFieldName : QboEntityType → String
  | .customers => "DisplayName"
  | .items => "Name"
  | .invoices => "DocNumber"
  | .accounts => "Name"
  | .vendors => "DisplayName"

/-- The `STATUS_FIELDS`: status field per entity type (none for invoices). -/
def statusFieldName : QboEntityType → Option String
  | .customers => some "Active"
  | .items => some "Active"
  | .invoices => none
  | .accounts => some "Active"
  | .vendors => some "Active"

/-- The `status` query option of the proxy API. -/
inductive StatusFilter where
  | active
  | inactive
  | all
deriving DecidableEq, Repr

/-- The `ProxyQueryOptions` from the QBO proxy service.  `none` models a field
left `undefined` by the caller. -/
structure ProxyQueryOptions where
  search : Option String := none
  status : Option StatusFilter := none
  limit : Option Nat := none
  offset : Option Nat := none
deriving DecidableEq, Repr

/-- The single-quote character. -/
def sqChar : Char := Char.ofNat 39

/-- The single-quote character, as a string. -/
def sq : String := String.singleton sqChar

/-- The `search.replace(/single-quote/g, backslash-quote)` escaping of
`buildQuery`, over the character list. -/
def escapeQuotes : List Char → List Char
  | [] => []
  | c :: rest =>
    if c = sqChar then '\\' :: sqChar :: escapeQuotes rest
    else c :: escapeQuotes rest

/-- The `buildQuery` from the QBO proxy service: `SELECT * FROM <entity>`,
optional status / search conditions joined by `AND`, then the 1-indexed
`STARTPOSITION <offset+1> MAXRESULTS <limit>` pagination tail.  The
destructuring defaults (`status = active`, `limit = 100`, `offset = 0`)
apply only when the option is absent. -/
def buildQuery (entityType : QboEntityType) (options : ProxyQueryOptions) : String :=
  let entity := entityMapName entityType
  let searchField := searchFieldName entityType
  let statusField := statusFieldName entityType
  let status := options.status.getD .active
  let limit := options.limit.getD 100
  let offset := options.offset.getD 0
  let base := "SELECT * FROM " ++ entity
  let conditions : List String :=
    (match statusField with
     | some f =>
       if status ≠ .all then
         [f ++ " = " ++ (if status = .active then "true" else "false")]
       else []
     | none => []) ++
    (match options.search with
     | some s =>
       if s ≠ "" && s.data.any (fun ch => !ch.isWhitespace) then
         let escapedSearch := (escapeQuotes s.data).asString
         [searchField ++ " LIKE " ++ sq ++ "%" ++ escapedSearch ++ "%" ++ sq]
       else []
     | none => [])
  let withWhere :=
    if conditions.length > 0 then
      base ++ " WHERE " ++ String.intercalate " AND " conditions
    else base
  withWhere ++ " STARTPOSITION " ++ toString (offset + 1) ++
    " MAXRESULTS " ++ toString limit

/-- A QBO entity payload: the top-level key/value pairs of the JSON
object, values left abstract in `V`. -/
abbrev Entity (V : Type) := List (String × V)

/-- The excluded QBO metadata fields of `sanitizeEntity`. -/
def excludeFields : List String := ["domain", "sparse", "SyncToken"]

/-- The `sanitizeEntity` from the QBO proxy service: copy every top-level
key/value pair whose key is not in `excludeFields`. -/
def sanitizeEntity {V : Type} (entity : Entity V) : Entity V :=
  entity.filter (fun kv => !(excludeFields.contains kv.1))

/-- A QBO `Fault` body (the per-error message texts). -/
structure QBOFault where
  messages : List String
deriving DecidableEq, Repr

/-- The `parseQboError`, reduced to the message it extracts (the proxy only
uses the message of the first error). -/
def parseQboErrorMessage (fault : QBOFault) : String :=
  match fault.messages.head? with
  | none => "Unknown QBO error"
  | some m => m

/-- The parsed body of a QBO query response: an optional `Fault` and the
optional entity array found under the entity name inside
`QueryResponse`. -/
structure QueryBody (V : Type) where
  fault : Option QBOFault := none
  entities : Option (List (Entity V)) := none

/-- Pagination / shape metadata returned by `fetchEntities`. -/
structure ProxyMeta where
  type : QboEntityType
  count : Nat
  limit : Nat
  offset : Nat
  hasMore : Bool
deriving DecidableEq, Repr

/-- The `ProxyResult` shape of `fetchEntities` (`none` models a field the
source leaves undefined on that path). -/
structure ProxyResult (V : Type) where
  success : Bool
  data : Option (List (Entity V)) := none
  error : Option String := none
  errorCode : Option String := none
  needsReconnect : Option Bool := none
  meta : Option ProxyMeta := none

/-- The token-error → proxy-error code mapping shared by `fetchEntities`
and `fetchEntityById`: `TOKEN_EXPIRED` → `ERR_TOKEN_EXPIRED`,
`TOKEN_REVOKED` → `ERR_TOKEN_REVOKED`, everything else →
`ERR_QBO_UNAVAILABLE`. -/
def mapProxyErrorCode (code : TokenErrorCode) : String :=
  if code = .TOKEN_EXPIRED then "ERR_TOKEN_EXPIRED"
  else if code = .TOKEN_REVOKED then "ERR_TOKEN_REVOKED"
  else "ERR_QBO_UNAVAILABLE"

/-- The `fetchEntities` from the QBO proxy service, paired with the number of
upstream calls made.  The effective `limit`/`offset` recomputed here use
JavaScript truthiness (`options.limit || 100`), so an explicit `0` limit
falls back to `100` — unlike the destructuring default inside
`buildQuery`. -/
def fetchEntities {V : Type} (entityType : QboEntityType)
    (options : ProxyQueryOptions) (cred : Option Credential) (now : Time)
    (call : Nat → String → String → UpstreamResponse (QueryBody V))
    (refresh : Nat → RefreshResult) : ProxyResult V × Nat :=
  let limit := match options.limit with
    | some l => if l = 0 then 100 else l
    | none => 100
  let offset := match options.offset with
    | some o => o
    | none => 0
  let out := executeWithTokenRefresh cred now call (fun r => r.body) refresh
  match out.result with
  | .err f =>
    ({ success := false
       error := some "Failed to connect to QuickBooks"
       errorCode := some (mapProxyErrorCode f.errorCode)
       needsReconnect := some f.needsReconnect }, out.upstreamCalls)
  | .ok data =>
    match data.fault with
    | some fault =>
      ({ success := false
         error := some (parseQboErrorMessage fault)
         errorCode := some "ERR_INVALID_QUERY" }, out.upstreamCalls)
    | none =>
      let entities := data.entities.getD []
      let sanitizedEntities := entities.map sanitizeEntity
      let hasMore := entities.length == limit
      ({ success := true
         data := some sanitizedEntities
         meta := some
           { type := entityType
             count := sanitizedEntities.length
             limit := limit
             offset := offset
             hasMore := hasMore } }, out.upstreamCalls)

/-- The parsed body of a single-entity fetch: the parse callback maps an
HTTP 404 to a `notFound` marker before any other inspection. -/
inductive ParsedSingle (V : Type) where
  | notFound
  | body (fault : Option QBOFault) (entity : Option (Entity V))

/-- The response parser of `fetchEntityById`: status 404 → `notFound`,
otherwise the JSON body (optional `Fault`, optional entity under the
entity name). -/
def parseSingleResponse {V : Type}
    (r : UpstreamResponse (Option QBOFault × Option (Entity V))) : ParsedSingle V :=
  if r.status = 404 then .notFound
  else .body r.body.1 r.body.2

/-- The `ProxySingleResult` shape of `fetchEntityById`. -/
structure ProxySingleResult (V : Type) where
  success : Bool
  data : Option (Entity V) := none
  error : Option String := none
  errorCode : Option String := none
  needsReconnect : Option Bool := none

/-- The `fetchEntityById` from the QBO proxy service, paired with the number
of upstream calls made.  Branch order as in the source: token failure →
re-mapped code; `_notFound` → `ERR_NOT_FOUND`; `Fault` →
`ERR_INVALID_QUERY`; entity missing under its key → `ERR_NOT_FOUND`;
otherwise the sanitized entity. -/
def fetchEntityById {V : Type} (entityType : QboEntityType) (entityId : String)
    (cred : Option Credential) (now : Time)
    (call : Nat → String → String → UpstreamResponse (Option QBOFault × Option (Entity V)))
    (refresh : Nat → RefreshResult) : ProxySingleResult V × Nat :=
  let entityName := entityMapName entityType
  let out := executeWithTokenRefresh cred now call parseSingleResponse refresh
  match out.result with
  | .err f =>
    ({ success := false
       error := some "Failed to connect to QuickBooks"
       errorCode := some (mapProxyErrorCode f.errorCode)
       needsReconnect := some f.needsReconnect }, out.upstreamCalls)
  | .ok (.notFound) =>
    ({ success := false
       error := some (entityName ++ " with ID " ++ entityId ++ " not found")
       errorCode := some "ERR_NOT_FOUND" }, out.upstreamCalls)
  | .ok (.body (some fault) _) =>
    ({ success := false
       error := some (parseQboErrorMessage fault)
       errorCode := some "ERR_INVALID_QUERY" }, out.upstreamCalls)
  | .ok (.body none none) =>
    ({ success := false
       error := some (entityName ++ " with ID " ++ entityId ++ " not found")
       errorCode := some "ERR_NOT_FOUND" }, out.upstreamCalls)
  | .ok (.body none (some entity)) =>
    ({ success := true
       data := some (sanitizeEntity entity) }, out.upstreamCalls)

/-! ## Theorems -/

/-- Claim C9: applying `sanitizeEntity` twice yields the same result as
applying it once, and the result never contains a top-level `domain`,
`sparse` or `SyncToken` key. -/
theorem C9_sanitizeEntity_idempotent_and_clean {V : Type} (e : Entity V) :
    sanitizeEntity (sanitizeEntity e) = sanitizeEntity e ∧
    (sanitizeEntity e).all (fun kv => !(excludeFields.contains kv.1)) = true := by
  refine ⟨?_, ?_⟩
  · simp [sanitizeEntity, List.filter_filter]
  · rw [List.all_eq_true]
    intro kv hkv
    exact (List.mem_filter.mp hkv).2

/-- Claim C1: a request with a route organization and a tenant-type key
bound to a different organization is answered `403` with code
`ERR_KEY_ORG_MISMATCH` by `requireKeyForOrganization`, the downstream
proxy handler is never reached (zero upstream calls), and a
`global_admin` key passes the guard for any organization. -/
theorem C1_tenant_key_org_mismatch_is_403_no_upstream
    (c : ApiKeyContext) (orgId : String) (handlerUpstreamCalls : Nat)
    (htype : c.key_type = .tenant)
    (hmismatch : c.organization_id ≠ some orgId) :
    requireKeyForOrganization (some c) (some orgId) =
      .respond 403 "ERR_KEY_ORG_MISMATCH" ∧
    guardedUpstreamCalls (some c) (some orgId) handlerUpstreamCalls = 0 ∧
    (∀ c2 : ApiKeyContext, c2.key_type = .global_admin →
      requireKeyForOrganization (some c2) (some orgId) = .proceed) := by
  have hne : c.key_type ≠ ApiKeyType.global_admin := by
    rw [htype]; intro h; cases h
  refine ⟨?_, ?_, ?_⟩
  · simp [requireKeyForOrganization, hne, hmismatch]
  · simp [guardedUpstreamCalls, requireKeyForOrganization, hne, hmismatch]
  · intro c2 h2
    simp [requireKeyForOrganization, h2]

/-- Witness for C1 at a concrete mismatching tenant key. -/
theorem C1_witness :
    requireKeyForOrganization
        (some ⟨"key-1", some "org-B", .tenant⟩) (some "org-A") =
      .respond 403 "ERR_KEY_ORG_MISMATCH" ∧
    guardedUpstreamCalls
        (some ⟨"key-1", some "org-B", .tenant⟩) (some "org-A") 5 = 0 ∧
    (∀ c2 : ApiKeyContext, c2.key_type = .global_admin →
      requireKeyForOrganization (some c2) (some "org-A") = .proceed) :=
  C1_tenant_key_org_mismatch_is_403_no_upstream
    ⟨"key-1", some "org-B", .tenant⟩ "org-A" 5 rfl (by decide)

/-- Claim C10: with a validated tenant-type key but no organization
resolved onto the route, `requireKeyForOrganization` calls `next()` and
lets the request proceed without a tenant-binding check. -/
theorem C10_no_route_org_guard_passes
    (c : ApiKeyContext) (htype : c.key_type = .tenant) :
    requireKeyForOrganization (some c) none = .proceed := by
  have hne : c.key_type ≠ ApiKeyType.global_admin := by
    rw [htype]; intro h; cases h
  simp [requireKeyForOrganization, hne]

/-- Witness for C10 at a concrete tenant key. -/
theorem C10_witness :
    requireKeyForOrganization
      (some ⟨"key-9", some "org-B", .tenant⟩) none = .proceed :=
  C10_no_route_org_guard_passes ⟨"key-9", some "org-B", .tenant⟩ rfl

/-- The tenant key of organization `org-1` before rotation (the hash
function is instantiated with the identity on the secret, which is
immaterial to the lifecycle logic under test). -/
def rotOldKey : ApiKey :=
  { key_id := "key-A", organization_id := some "org-1",
    key_hash := "qbo_live_oldsecret", name := "acme key", key_type := .tenant,
    is_active := true, created_at := 0, expires_at := none, revoked_at := none,
    grace_period_ends_at := none }

/-- The replacement key created by the rotation of `rotOldKey`. -/
def rotNewKey : ApiKey :=
  { key_id := "key-B", organization_id := some "org-1",
    key_hash := "qbo_live_newsecret", name := "acme key", key_type := .tenant,
    is_active := true, created_at := 0, expires_at := none, revoked_at := none,
    grace_period_ends_at := none }

/-- The key table after rotating `rotOldKey` at time 0 with a 60-minute
grace period: the old key carries `grace_period_ends_at = 3600000`. -/
def rotStoreAfter : KeyStore :=
  [{ rotOldKey with grace_period_ends_at := some 3600000 }, rotNewKey]

/-- Claim C2, evaluated on the code: rotating `key-A` at time 0 with a
60-minute grace period yields `rotStoreAfter`; during the grace window
(time 1000) both secrets validate, as the claim states — but at time
7200000, one hour past `grace_period_ends_at = 3600000`, the old secret
STILL validates, because `validateApiKey` never reads
`grace_period_ends_at` and `cleanupExpiredKeys` is an unimplemented
placeholder.  The claim (and the code's own documentation of the grace
period) requires the old key to reject at that point. -/
theorem C2_old_key_still_validates_after_grace :
    rotateApiKey (fun s => s) [rotOldKey] "key-A" 60 0
        "qbo_live_newsecret" "key-B" = .ok rotStoreAfter ∧
    (validateApiKey (fun s => s) rotStoreAfter 1000 "qbo_live_oldsecret").valid = true ∧
    (validateApiKey (fun s => s) rotStoreAfter 1000 "qbo_live_newsecret").valid = true ∧
    (3600000 : Time) ≤ 7200000 ∧
    (validateApiKey (fun s => s) rotStoreAfter 7200000 "qbo_live_oldsecret").valid = true ∧
    (validateApiKey (fun s => s) rotStoreAfter 7200000 "qbo_live_newsecret").valid = true :=
  ⟨rfl, by decide, by decide, by decide, by decide, by decide⟩

/-- The key table for the C5 counterexample: one inactive key and one
revoked key, with the hash function again the identity on the secret. -/
def c5Store : KeyStore :=
  [{ key_id := "key-I", organization_id := some "org-1",
     key_hash := "qbo_live_inactive", name := "i", key_type := .tenant,
     is_active := false, created_at := 0, expires_at := none, revoked_at := none,
     grace_period_ends_at := none },
   { key_id := "key-R", organization_id := some "org-1",
     key_hash := "qbo_live_revoked", name := "r", key_type := .tenant,
     is_active := true, created_at := 0, expires_at := none, revoked_at := some 5,
     grace_period_ends_at := none }]

/-- Counterexample to claim C5: two invalid secrets failing for different
reasons (inactive vs. revoked) produce DIFFERENT error output — both at
`validateApiKey` (distinct per-reason messages) and in the HTTP response
of `requireApiKey`, which forwards `validation.error` to the client. -/
theorem C5_counterexample_distinct_rejection_messages :
    (validateApiKey (fun s => s) c5Store 1000 "qbo_live_inactive").valid = false ∧
    (validateApiKey (fun s => s) c5Store 1000 "qbo_live_revoked").valid = false ∧
    (validateApiKey (fun s => s) c5Store 1000 "qbo_live_inactive").error ≠
      (validateApiKey (fun s => s) c5Store 1000 "qbo_live_revoked").error ∧
    requireApiKey none (fun s => s) c5Store 1000 { headerKey := some "qbo_live_inactive" } =
      .respond 401 "ERR_INVALID_API_KEY" "API key is inactive" ∧
    requireApiKey none (fun s => s) c5Store 1000 { headerKey := some "qbo_live_revoked" } =
      .respond 401 "ERR_INVALID_API_KEY" "API key has been revoked" := by
  refine ⟨by decide, by decide, by decide, by decide, by decide⟩

/-- Claim C5 as amended: every failing secret — regardless of which of
the checks rejected it — is answered with the same HTTP status 401 and
the same machine code `ERR_INVALID_API_KEY`; only the human-readable
message in the body reveals the failing check (it is the per-reason
`validation.error`). -/
theorem C5_amended_uniform_status_and_code
    (allowedTypes : Option (List ApiKeyType)) (hashFn : String → String)
    (store : KeyStore) (now : Time) (req : MwRequest) (k : String)
    (hk : extractApiKey req = some k)
    (hinv : (validateApiKey hashFn store now k).valid = false) :
    requireApiKey allowedTypes hashFn store now req =
      .respond 401 "ERR_INVALID_API_KEY"
        ((validateApiKey hashFn store now k).error.getD "Invalid API key") := by
  simp only [requireApiKey, hk]
  cases hkey : (validateApiKey hashFn store now k).key with
  | none => simp [hkey]
  | some vkey => simp [hkey, hinv]

/-- Witness for the amended C5 at a concrete revoked key. -/
theorem C5_amended_witness :
    requireApiKey none (fun s => s) c5Store 1000
        { headerKey := some "qbo_live_revoked" } =
      .respond 401 "ERR_INVALID_API_KEY"
        ((validateApiKey (fun s => s) c5Store 1000 "qbo_live_revoked").error.getD
          "Invalid API key") :=
  C5_amended_uniform_status_and_code none (fun s => s) c5Store 1000
    { headerKey := some "qbo_live_revoked" } "qbo_live_revoked"
    (by decide) (by decide)

/-- The attempt loop never makes more than two upstream calls. -/
theorem runUpstreamAttempts_calls_le_two {β ρ : Type} (c1 : Credential)
    (call : Nat → String → String → UpstreamResponse β)
    (parse : UpstreamResponse β → ρ) (refresh : Nat → RefreshResult)
    (refreshesUsed : Nat) :
    (runUpstreamAttempts c1 call parse refresh refreshesUsed).upstreamCalls ≤ 2 := by
  simp only [runUpstreamAttempts]
  split
  · simp
  · split
    · simp
    · split <;> simp

/-- When every upstream answer is a 401 and every refresh succeeds, the
attempt loop ends terminally after exactly two calls. -/
theorem runUpstreamAttempts_double401 {β ρ : Type} (c1 : Credential)
    (call : Nat → String → String → UpstreamResponse β)
    (parse : UpstreamResponse β → ρ) (refresh : Nat → RefreshResult)
    (refreshesUsed : Nat)
    (hcall : ∀ i tok realm, (call i tok realm).status = 401)
    (hrefresh : ∀ j, ∃ a r e, refresh j = .ok a r e) :
    (runUpstreamAttempts c1 call parse refresh refreshesUsed).result =
      .err ⟨.TOKEN_EXPIRED, true⟩ ∧
    (runUpstreamAttempts c1 call parse refresh refreshesUsed).upstreamCalls = 2 := by
  obtain ⟨a, r, e, hj⟩ := hrefresh refreshesUsed
  unfold runUpstreamAttempts
  simp [hcall, hj]

/-- Claim C3: for every tenant credential and every sequence of upstream
responses, `executeWithTokenRefresh` makes at most 2 upstream calls; and
when the upstream answers 401 on both attempts (credential connected,
refreshes succeeding, so both attempts happen), it returns a terminal
classified error — `TOKEN_EXPIRED` or `TOKEN_REVOKED` with
`needsReconnect = true` — after exactly 2 calls, never a third. -/
theorem C3_attempts_capped_at_two {β ρ : Type}
    (cred : Option Credential) (now : Time)
    (call : Nat → String → String → UpstreamResponse β)
    (parse : UpstreamResponse β → ρ) (refresh : Nat → RefreshResult) :
    (executeWithTokenRefresh cred now call parse refresh).upstreamCalls ≤ 2 ∧
    (∀ c, cred = some c → c.is_active = true →
      c.status ≠ .revoked → c.status ≠ .disconnected →
      (∀ i tok realm, (call i tok realm).status = 401) →
      (∀ j, ∃ a r e, refresh j = .ok a r e) →
      ∃ code, (code = TokenErrorCode.TOKEN_EXPIRED ∨
               code = TokenErrorCode.TOKEN_REVOKED) ∧
        (executeWithTokenRefresh cred now call parse refresh).result =
          .err ⟨code, true⟩ ∧
        (executeWithTokenRefresh cred now call parse refresh).upstreamCalls = 2) := by
  constructor
  · cases cred with
    | none => simp [executeWithTokenRefresh]
    | some c =>
      simp only [executeWithTokenRefresh]
      split
      · simp
      · split
        · split
          · simp
          · exact runUpstreamAttempts_calls_le_two _ _ _ _ _
        · exact runUpstreamAttempts_calls_le_two _ _ _ _ _
  · intro c hc hact hrev hdis hcall hrefresh
    subst hc
    have hterm := fun c1 n =>
      runUpstreamAttempts_double401 c1 call parse refresh n hcall hrefresh
    refine ⟨.TOKEN_EXPIRED, Or.inl rfl, ?_⟩
    simp only [executeWithTokenRefresh]
    have hguard :
        (!c.is_active || decide (c.status = .revoked) ||
          decide (c.status = .disconnected)) = false := by
      simp [hact, hrev, hdis]
    rw [hguard]
    simp only [Bool.false_eq_true, if_false]
    split
    · obtain ⟨a, r, e, hj⟩ := hrefresh 0
      rw [hj]
      exact hterm _ 1
    · exact hterm _ 0

/-- Witness for C3: a connected credential with a fresh token, every
upstream answer 401, every refresh succeeding. -/
theorem C3_witness :
    ((executeWithTokenRefresh
        (some { realmId := "realm-1", accessToken := "tok", refreshToken := "rt",
                accessExpiresAt := some 1000000000, status := .active,
                is_active := true })
        0 (fun _ _ _ => (⟨401, ()⟩ : UpstreamResponse Unit)) (fun _ => ())
        (fun _ => .ok "a" "r" 5)).upstreamCalls ≤ 2) ∧
    (∃ code, (code = TokenErrorCode.TOKEN_EXPIRED ∨
              code = TokenErrorCode.TOKEN_REVOKED) ∧
      (executeWithTokenRefresh
        (some { realmId := "realm-1", accessToken := "tok", refreshToken := "rt",
                accessExpiresAt := some 1000000000, status := .active,
                is_active := true })
        0 (fun _ _ _ => (⟨401, ()⟩ : UpstreamResponse Unit)) (fun _ => ())
        (fun _ => .ok "a" "r" 5)).result = .err ⟨code, true⟩ ∧
      (executeWithTokenRefresh
        (some { realmId := "realm-1", accessToken := "tok", refreshToken := "rt",
                accessExpiresAt := some 1000000000, status := .active,
                is_active := true })
        0 (fun _ _ _ => (⟨401, ()⟩ : UpstreamResponse Unit)) (fun _ => ())
        (fun _ => .ok "a" "r" 5)).upstreamCalls = 2) := by
  have h := C3_attempts_capped_at_two
    (some { realmId := "realm-1", accessToken := "tok", refreshToken := "rt",
            accessExpiresAt := some 1000000000, status := .active,
            is_active := true })
    0 (fun _ _ _ => (⟨401, ()⟩ : UpstreamResponse Unit)) (fun _ => ())
    (fun _ => .ok "a" "r" 5)
  exact ⟨h.1, h.2 _ rfl rfl (by decide) (by decide)
    (fun i tok realm => rfl) (fun j => ⟨"a", "r", 5, rfl⟩)⟩

/-- Claim C4: when the refresh-token exchange fails (here on the
proactive-refresh path, entered because the stored token is not valid),
the failure is classified by its error text: `invalid_grant`/`revoked`
text → `TOKEN_REVOKED`, stored status `revoked`, active flag cleared,
`needsReconnect = true`; network/timeout-style text → `NETWORK_ERROR`,
credential untouched, `needsReconnect = false`; anything else →
`REFRESH_FAILED`, status `refresh_failed`, `needsReconnect = true`. -/
theorem C4_refresh_failure_classification {β ρ : Type}
    (c : Credential) (now : Time)
    (call : Nat → String → String → UpstreamResponse β)
    (parse : UpstreamResponse β → ρ) (refresh : Nat → RefreshResult)
    (hact : c.is_active = true) (hrev : c.status ≠ .revoked)
    (hdis : c.status ≠ .disconnected)
    (hstale : checkTokenValidity c now ≠ .valid)
    (errText : String) (hfail : refresh 0 = .failure errText) :
    ((containsText errText "invalid_grant" || containsText errText "revoked") = true →
      (executeWithTokenRefresh (some c) now call parse refresh).result =
        .err ⟨.TOKEN_REVOKED, true⟩ ∧
      (executeWithTokenRefresh (some c) now call parse refresh).cred =
        some { c with status := .revoked, is_active := false }) ∧
    ((containsText errText "invalid_grant" || containsText errText "revoked") = false →
      isNetworkStyleError errText = true →
      (executeWithTokenRefresh (some c) now call parse refresh).result =
        .err ⟨.NETWORK_ERROR, false⟩ ∧
      (executeWithTokenRefresh (some c) now call parse refresh).cred = some c) ∧
    ((containsText errText "invalid_grant" || containsText errText "revoked") = false →
      isNetworkStyleError errText = false →
      (executeWithTokenRefresh (some c) now call parse refresh).result =
        .err ⟨.REFRESH_FAILED, true⟩ ∧
      (executeWithTokenRefresh (some c) now call parse refresh).cred =
        some { c with status := .refresh_failed }) := by
  have hguard :
      (!c.is_active || decide (c.status = .revoked) ||
        decide (c.status = .disconnected)) = false := by
    simp [hact, hrev, hdis]
  have hout :
      executeWithTokenRefresh (some c) now call parse refresh =
        ⟨.err ⟨classifyRefreshFailure errText,
               needsReconnectFor (classifyRefreshFailure errText)⟩, 0,
         some (applyRefreshFailure c (classifyRefreshFailure errText))⟩ := by
    simp only [executeWithTokenRefresh]
    rw [hguard]
    simp only [Bool.false_eq_true, if_false]
    rw [if_pos hstale, hfail]
  rw [hout]
  refine ⟨?_, ?_, ?_⟩
  · intro h1
    simp [classifyRefreshFailure, h1, applyRefreshFailure, needsReconnectFor]
  · intro h1 h2
    simp [classifyRefreshFailure, h1, h2, applyRefreshFailure, needsReconnectFor]
  · intro h1 h2
    simp [classifyRefreshFailure, h1, h2, applyRefreshFailure, needsReconnectFor]

/-- Witness for C4: an expired credential whose refresh exchange answers
with an `invalid_grant` error body. -/
theorem C4_witness :
    (executeWithTokenRefresh
      (some { realmId := "realm-1", accessToken := "tok", refreshToken := "rt",
              accessExpiresAt := some 10, status := .active, is_active := true })
      5000000 (fun _ _ _ => (⟨200, ()⟩ : UpstreamResponse Unit)) (fun _ => ())
      (fun _ => .failure "error: invalid_grant")).result =
        .err ⟨.TOKEN_REVOKED, true⟩ ∧
    (executeWithTokenRefresh
      (some { realmId := "realm-1", accessToken := "tok", refreshToken := "rt",
              accessExpiresAt := some 10, status := .active, is_active := true })
      5000000 (fun _ _ _ => (⟨200, ()⟩ : UpstreamResponse Unit)) (fun _ => ())
      (fun _ => .failure "error: invalid_grant")).cred =
        some { realmId := "realm-1", accessToken := "tok", refreshToken := "rt",
               accessExpiresAt := some 10, status := .revoked, is_active := false } :=
  (C4_refresh_failure_classification
    { realmId := "realm-1", accessToken := "tok", refreshToken := "rt",
      accessExpiresAt := some 10, status := .active, is_active := true }
    5000000 (fun _ _ _ => (⟨200, ()⟩ : UpstreamResponse Unit)) (fun _ => ())
    (fun _ => .failure "error: invalid_grant")
    rfl (by decide) (by decide) (by decide)
    "error: invalid_grant" rfl).1 (by decide)

/-- Claim C6: whenever the token manager fails, `fetchEntities` and
`fetchEntityById` return `success = false` with the token error code
re-mapped — `TOKEN_EXPIRED` → `ERR_TOKEN_EXPIRED`, `TOKEN_REVOKED` →
`ERR_TOKEN_REVOKED`, everything else (including `NOT_CONNECTED`) →
`ERR_QBO_UNAVAILABLE` — and `needsReconnect` passed through unchanged; in
particular a tenant with no credential row gets `ERR_QBO_UNAVAILABLE`
with `needsReconnect = true` and zero upstream calls from either
operation. -/
theorem C6_token_errors_remapped_to_proxy_codes {V : Type}
    (entityType : QboEntityType) (options : ProxyQueryOptions)
    (cred : Option Credential) (now : Time)
    (call : Nat → String → String → UpstreamResponse (QueryBody V))
    (refresh : Nat → RefreshResult) (f : TMFailure)
    (herr : (executeWithTokenRefresh cred now call
        (fun r => r.body) refresh).result = .err f) :
    ((fetchEntities entityType options cred now call refresh).1.success = false ∧
     (fetchEntities entityType options cred now call refresh).1.errorCode =
       some (if f.errorCode = .TOKEN_EXPIRED then "ERR_TOKEN_EXPIRED"
             else if f.errorCode = .TOKEN_REVOKED then "ERR_TOKEN_REVOKED"
             else "ERR_QBO_UNAVAILABLE") ∧
     (fetchEntities entityType options cred now call refresh).1.needsReconnect =
       some f.needsReconnect) ∧
    ((fetchEntities entityType options none now call refresh).1.success = false ∧
     (fetchEntities entityType options none now call refresh).1.errorCode =
       some "ERR_QBO_UNAVAILABLE" ∧
     (fetchEntities entityType options none now call refresh).1.needsReconnect =
       some true ∧
     (fetchEntities entityType options none now call refresh).2 = 0) ∧
    (∀ (entityId : String)
       (callById : Nat → String → String →
         UpstreamResponse (Option QBOFault × Option (Entity V)))
       (refreshById : Nat → RefreshResult) (g : TMFailure),
      (executeWithTokenRefresh cred now callById
          parseSingleResponse refreshById).result = .err g →
      (fetchEntityById entityType entityId cred now callById refreshById).1.success =
        false ∧
      (fetchEntityById entityType entityId cred now callById refreshById).1.errorCode =
        some (if g.errorCode = .TOKEN_EXPIRED then "ERR_TOKEN_EXPIRED"
              else if g.errorCode = .TOKEN_REVOKED then "ERR_TOKEN_REVOKED"
              else "ERR_QBO_UNAVAILABLE") ∧
      (fetchEntityById entityType entityId cred now callById
          refreshById).1.needsReconnect = some g.needsReconnect) ∧
    (∀ (entityId : String)
       (callById : Nat → String → String →
         UpstreamResponse (Option QBOFault × Option (Entity V)))
       (refreshById : Nat → RefreshResult),
      (fetchEntityById entityType entityId none now callById refreshById).1.success =
        false ∧
      (fetchEntityById entityType entityId none now callById refreshById).1.errorCode =
        some "ERR_QBO_UNAVAILABLE" ∧
      (fetchEntityById entityType entityId none now callById
          refreshById).1.needsReconnect = some true ∧
      (fetchEntityById entityType entityId none now callById refreshById).2 = 0) := by
  refine ⟨?_, ?_, ?_, ?_⟩
  · simp only [fetchEntities]
    rw [herr]
    exact ⟨rfl, rfl, rfl⟩
  · exact ⟨rfl, rfl, rfl, rfl⟩
  · intro entityId callById refreshById g hg
    simp only [fetchEntityById]
    rw [hg]
    exact ⟨rfl, rfl, rfl⟩
  · intro entityId callById refreshById
    exact ⟨rfl, rfl, rfl, rfl⟩

/-- Witness for C6: the no-credential tenant, for both operations. -/
theorem C6_witness :
    ((fetchEntities .customers {} none 0
        (fun _ _ _ => (⟨200, {}⟩ : UpstreamResponse (QueryBody Unit)))
        (fun _ => .failure "x")).1.success = false ∧
     (fetchEntities .customers {} none 0
        (fun _ _ _ => (⟨200, {}⟩ : UpstreamResponse (QueryBody Unit)))
        (fun _ => .failure "x")).1.errorCode =
       some (if TMFailure.errorCode ⟨.NOT_CONNECTED, true⟩ = .TOKEN_EXPIRED
             then "ERR_TOKEN_EXPIRED"
             else if TMFailure.errorCode ⟨.NOT_CONNECTED, true⟩ = .TOKEN_REVOKED
             then "ERR_TOKEN_REVOKED"
             else "ERR_QBO_UNAVAILABLE") ∧
     (fetchEntities .customers {} none 0
        (fun _ _ _ => (⟨200, {}⟩ : UpstreamResponse (QueryBody Unit)))
        (fun _ => .failure "x")).1.needsReconnect =
       some (TMFailure.needsReconnect ⟨.NOT_CONNECTED, true⟩)) ∧
    ((fetchEntities .customers {} none 0
        (fun _ _ _ => (⟨200, {}⟩ : UpstreamResponse (QueryBody Unit)))
        (fun _ => .failure "x")).1.success = false ∧
     (fetchEntities .customers {} none 0
        (fun _ _ _ => (⟨200, {}⟩ : UpstreamResponse (QueryBody Unit)))
        (fun _ => .failure "x")).1.errorCode =
       some "ERR_QBO_UNAVAILABLE" ∧
     (fetchEntities .customers {} none 0
        (fun _ _ _ => (⟨200, {}⟩ : UpstreamResponse (QueryBody Unit)))
        (fun _ => .failure "x")).1.needsReconnect =
       some true ∧
     (fetchEntities .customers {} none 0
        (fun _ _ _ => (⟨200, {}⟩ : UpstreamResponse (QueryBody Unit)))
        (fun _ => .failure "x")).2 = 0) ∧
    ((fetchEntityById .customers "42" none 0
        (fun _ _ _ =>
          (⟨200, (none, none)⟩ :
            UpstreamResponse (Option QBOFault × Option (Entity Unit))))
        (fun _ => .failure "x")).1.success = false ∧
     (fetchEntityById .customers "42" none 0
        (fun _ _ _ =>
          (⟨200, (none, none)⟩ :
            UpstreamResponse (Option QBOFault × Option (Entity Unit))))
        (fun _ => .failure "x")).1.errorCode =
       some (if TMFailure.errorCode ⟨.NOT_CONNECTED, true⟩ = .TOKEN_EXPIRED
             then "ERR_TOKEN_EXPIRED"
             else if TMFailure.errorCode ⟨.NOT_CONNECTED, true⟩ = .TOKEN_REVOKED
             then "ERR_TOKEN_REVOKED"
             else "ERR_QBO_UNAVAILABLE") ∧
     (fetchEntityById .customers "42" none 0
        (fun _ _ _ =>
          (⟨200, (none, none)⟩ :
            UpstreamResponse (Option QBOFault × Option (Entity Unit))))
        (fun _ => .failure "x")).1.needsReconnect =
       some (TMFailure.needsReconnect ⟨.NOT_CONNECTED, true⟩)) ∧
    ((fetchEntityById .customers "42" none 0
        (fun _ _ _ =>
          (⟨200, (none, none)⟩ :
            UpstreamResponse (Option QBOFault × Option (Entity Unit))))
        (fun _ => .failure "x")).1.success = false ∧
     (fetchEntityById .customers "42" none 0
        (fun _ _ _ =>
          (⟨200, (none, none)⟩ :
            UpstreamResponse (Option QBOFault × Option (Entity Unit))))
        (fun _ => .failure "x")).1.errorCode = some "ERR_QBO_UNAVAILABLE" ∧
     (fetchEntityById .customers "42" none 0
        (fun _ _ _ =>
          (⟨200, (none, none)⟩ :
            UpstreamResponse (Option QBOFault × Option (Entity Unit))))
        (fun _ => .failure "x")).1.needsReconnect = some true ∧
     (fetchEntityById .customers "42" none 0
        (fun _ _ _ =>
          (⟨200, (none, none)⟩ :
            UpstreamResponse (Option QBOFault × Option (Entity Unit))))
        (fun _ => .failure "x")).2 = 0) := by
  have h := C6_token_errors_remapped_to_proxy_codes .customers {} none 0
    (fun _ _ _ => (⟨200, {}⟩ : UpstreamResponse (QueryBody Unit)))
    (fun _ => .failure "x") ⟨.NOT_CONNECTED, true⟩ rfl
  exact ⟨h.1, h.2.1,
    h.2.2.1 "42"
      (fun _ _ _ =>
        (⟨200, (none, none)⟩ :
          UpstreamResponse (Option QBOFault × Option (Entity Unit))))
      (fun _ => .failure "x") ⟨.NOT_CONNECTED, true⟩ rfl,
    h.2.2.2 "42"
      (fun _ _ _ =>
        (⟨200, (none, none)⟩ :
          UpstreamResponse (Option QBOFault × Option (Entity Unit))))
      (fun _ => .failure "x")⟩

/-- When the first upstream answer is not a 401, the attempt loop stops
after that single call and returns its parsed body. -/
theorem runUpstreamAttempts_first_ok {β ρ : Type} (c1 : Credential)
    (call : Nat → String → String → UpstreamResponse β)
    (parse : UpstreamResponse β → ρ) (refresh : Nat → RefreshResult)
    (refreshesUsed : Nat)
    (h : (call 0 c1.accessToken c1.realmId).status ≠ 401) :
    runUpstreamAttempts c1 call parse refresh refreshesUsed =
      ⟨.ok (parse (call 0 c1.accessToken c1.realmId)), 1, some c1⟩ := by
  simp only [runUpstreamAttempts]
  rw [if_pos h]

/-- A connected credential with a still-valid token skips the guard and
the proactive refresh: the manager goes straight to the attempt loop. -/
theorem executeWithTokenRefresh_fresh_token {β ρ : Type} (c : Credential)
    (now : Time) (call : Nat → String → String → UpstreamResponse β)
    (parse : UpstreamResponse β → ρ) (refresh : Nat → RefreshResult)
    (hact : c.is_active = true) (hrev : c.status ≠ .revoked)
    (hdis : c.status ≠ .disconnected)
    (hvalid : checkTokenValidity c now = .valid) :
    executeWithTokenRefresh (some c) now call parse refresh =
      runUpstreamAttempts c call parse refresh 0 := by
  have hguard :
      (!c.is_active || decide (c.status = .revoked) ||
        decide (c.status = .disconnected)) = false := by
    simp [hact, hrev, hdis]
  simp only [executeWithTokenRefresh]
  rw [hguard]
  simp only [Bool.false_eq_true, if_false]
  rw [if_neg (by simp [hvalid])]

/-- Claim C7: in `fetchEntityById`, an upstream HTTP 404 — and likewise a
fault-free response body with no entity under the expected entity key —
yields a typed `success = false` result with code `ERR_NOT_FOUND` (an
explicit `Fault` body is an upstream error handled separately). -/
theorem C7_not_found_is_typed {V : Type} (entityType : QboEntityType)
    (entityId : String) (c : Credential) (now : Time)
    (call : Nat → String → String → UpstreamResponse (Option QBOFault × Option (Entity V)))
    (refresh : Nat → RefreshResult)
    (hact : c.is_active = true) (hrev : c.status ≠ .revoked)
    (hdis : c.status ≠ .disconnected)
    (hvalid : checkTokenValidity c now = .valid) :
    ((call 0 c.accessToken c.realmId).status = 404 →
      (fetchEntityById entityType entityId (some c) now call refresh).1.success = false ∧
      (fetchEntityById entityType entityId (some c) now call refresh).1.errorCode =
        some "ERR_NOT_FOUND") ∧
    ((call 0 c.accessToken c.realmId).status ≠ 401 →
     (call 0 c.accessToken c.realmId).status ≠ 404 →
     (call 0 c.accessToken c.realmId).body.1 = none →
     (call 0 c.accessToken c.realmId).body.2 = none →
      (fetchEntityById entityType entityId (some c) now call refresh).1.success = false ∧
      (fetchEntityById entityType entityId (some c) now call refresh).1.errorCode =
        some "ERR_NOT_FOUND") := by
  constructor
  · intro h404
    have h401 : (call 0 c.accessToken c.realmId).status ≠ 401 := by
      rw [h404]; decide
    have hmgr := (executeWithTokenRefresh_fresh_token c now call
        parseSingleResponse refresh hact hrev hdis hvalid).trans
      (runUpstreamAttempts_first_ok c call parseSingleResponse refresh 0 h401)
    have hparse : parseSingleResponse (call 0 c.accessToken c.realmId) =
        (ParsedSingle.notFound : ParsedSingle V) := by
      simp [parseSingleResponse, h404]
    simp only [fetchEntityById]
    rw [hmgr, hparse]
    exact ⟨rfl, rfl⟩
  · intro h401 h404 hfault hentity
    have hmgr := (executeWithTokenRefresh_fresh_token c now call
        parseSingleResponse refresh hact hrev hdis hvalid).trans
      (runUpstreamAttempts_first_ok c call parseSingleResponse refresh 0 h401)
    have hparse : parseSingleResponse (call 0 c.accessToken c.realmId) =
        (ParsedSingle.body none none : ParsedSingle V) := by
      simp only [parseSingleResponse]
      rw [if_neg h404, hfault, hentity]
    simp only [fetchEntityById]
    rw [hmgr, hparse]
    exact ⟨rfl, rfl⟩

/-- Witness for C7: a fresh credential and an upstream that answers 404. -/
theorem C7_witness :
    (fetchEntityById .customers "42"
      (some { realmId := "realm-1", accessToken := "tok", refreshToken := "rt",
              accessExpiresAt := some 1000000000, status := .active,
              is_active := true })
      0 (fun _ _ _ =>
          (⟨404, (none, none)⟩ :
            UpstreamResponse (Option QBOFault × Option (Entity Unit))))
      (fun _ => .failure "x")).1.success = false ∧
    (fetchEntityById .customers "42"
      (some { realmId := "realm-1", accessToken := "tok", refreshToken := "rt",
              accessExpiresAt := some 1000000000, status := .active,
              is_active := true })
      0 (fun _ _ _ =>
          (⟨404, (none, none)⟩ :
            UpstreamResponse (Option QBOFault × Option (Entity Unit))))
      (fun _ => .failure "x")).1.errorCode = some "ERR_NOT_FOUND" :=
  (C7_not_found_is_typed .customers "42"
    { realmId := "realm-1", accessToken := "tok", refreshToken := "rt",
      accessExpiresAt := some 1000000000, status := .active, is_active := true }
    0 (fun _ _ _ =>
        (⟨404, (none, none)⟩ :
          UpstreamResponse (Option QBOFault × Option (Entity Unit))))
    (fun _ => .failure "x")
    rfl (by decide) (by decide) (by decide)).1 rfl

/-- Counterexample to claim C8 at `options.limit = 0`: the query string
uses the destructuring default and says `MAXRESULTS 0` ("MAXRESULTS
equals limit"), but `fetchEntities` recomputes the limit with JavaScript
truthiness (`options.limit || 100`), so with 0 entities returned —
`count = 0 = limit` — the claim requires `hasMore = true`, while the code
reports `hasMore = (0 == 100) = false` (and `meta.limit = 100`, not 0). -/
theorem C8_counterexample_limit_zero :
    buildQuery .customers { limit := some 0 } =
      "SELECT * FROM Customer WHERE Active = true STARTPOSITION 1 MAXRESULTS 0" ∧
    (fetchEntities .customers { limit := some 0 }
      (some { realmId := "realm-1", accessToken := "tok", refreshToken := "rt",
              accessExpiresAt := some 1000000000, status := .active,
              is_active := true })
      0 (fun _ _ _ =>
          (⟨200, { entities := some [] }⟩ : UpstreamResponse (QueryBody Unit)))
      (fun _ => .failure "x")).1.success = true ∧
    (fetchEntities .customers { limit := some 0 }
      (some { realmId := "realm-1", accessToken := "tok", refreshToken := "rt",
              accessExpiresAt := some 1000000000, status := .active,
              is_active := true })
      0 (fun _ _ _ =>
          (⟨200, { entities := some [] }⟩ : UpstreamResponse (QueryBody Unit)))
      (fun _ => .failure "x")).1.meta =
      some { type := .customers, count := 0, limit := 100, offset := 0,
             hasMore := false } :=
  ⟨by decide, rfl, rfl⟩

/-- Claim C8 as amended: for every call whose explicit `limit` is not 0
(omitted or nonzero — at 0 the query tail and the recomputed limit
disagree, see the counterexample), the query ends in
`STARTPOSITION (offset+1) MAXRESULTS limit` with the defaults 100 / 0
for omitted options, and on success `meta.hasMore` is true exactly when
the number of returned entities equals that limit. -/
theorem C8_amended_pagination_and_hasMore {V : Type}
    (entityType : QboEntityType) (options : ProxyQueryOptions)
    (c : Credential) (now : Time)
    (call : Nat → String → String → UpstreamResponse (QueryBody V))
    (refresh : Nat → RefreshResult) (es : List (Entity V))
    (hlim : options.limit ≠ some 0)
    (hact : c.is_active = true) (hrev : c.status ≠ .revoked)
    (hdis : c.status ≠ .disconnected)
    (hvalid : checkTokenValidity c now = .valid)
    (h401 : (call 0 c.accessToken c.realmId).status ≠ 401)
    (hbody : (call 0 c.accessToken c.realmId).body =
      { fault := none, entities := some es }) :
    (∃ pre, buildQuery entityType options =
      pre ++ " STARTPOSITION " ++ toString (options.offset.getD 0 + 1) ++
        " MAXRESULTS " ++ toString (options.limit.getD 100)) ∧
    (fetchEntities entityType options (some c) now call refresh).1.success = true ∧
    (fetchEntities entityType options (some c) now call refresh).1.meta =
      some { type := entityType, count := es.length,
             limit := options.limit.getD 100, offset := options.offset.getD 0,
             hasMore := es.length == options.limit.getD 100 } := by
  have hl : (match options.limit with
      | some l => if l = 0 then 100 else l
      | none => 100) = options.limit.getD 100 := by
    cases hop : options.limit with
    | none => rfl
    | some l =>
      have hlz : l ≠ 0 := by
        intro h
        apply hlim
        rw [hop, h]
      simp [hlz]
  have hmgr := (executeWithTokenRefresh_fresh_token c now call
      (fun r => r.body) refresh hact hrev hdis hvalid).trans
    (runUpstreamAttempts_first_ok c call (fun r => r.body) refresh 0 h401)
  refine ⟨⟨_, rfl⟩, ?_, ?_⟩
  · simp only [fetchEntities]
    rw [hmgr]
    simp [hbody]
  · simp only [fetchEntities]
    rw [hl, hmgr]
    simp [hbody, Option.getD]
    cases options.offset <;> rfl

/-- Witness for the amended C8: explicit `limit = 2`, `offset = 3`, two
entities returned, so `hasMore = true`. -/
theorem C8_amended_witness :
    (∃ pre, buildQuery .customers { limit := some 2, offset := some 3 } =
      pre ++ " STARTPOSITION " ++
        toString ((ProxyQueryOptions.offset
          { limit := some 2, offset := some 3 }).getD 0 + 1) ++
        " MAXRESULTS " ++
        toString ((ProxyQueryOptions.limit
          { limit := some 2, offset := some 3 }).getD 100)) ∧
    (fetchEntities .customers { limit := some 2, offset := some 3 }
      (some { realmId := "realm-1", accessToken := "tok", refreshToken := "rt",
              accessExpiresAt := some 1000000000, status := .active,
              is_active := true })
      0 (fun _ _ _ =>
          (⟨200, { entities := some [[("Id", ())], [("domain", ())]] }⟩ :
            UpstreamResponse (QueryBody Unit)))
      (fun _ => .failure "x")).1.success = true ∧
    (fetchEntities .customers { limit := some 2, offset := some 3 }
      (some { realmId := "realm-1", accessToken := "tok", refreshToken := "rt",
              accessExpiresAt := some 1000000000, status := .active,
              is_active := true })
      0 (fun _ _ _ =>
          (⟨200, { entities := some [[("Id", ())], [("domain", ())]] }⟩ :
            UpstreamResponse (QueryBody Unit)))
      (fun _ => .failure "x")).1.meta =
      some { type := .customers,
             count := ([[("Id", ())], [("domain", ())]] : List (Entity Unit)).length,
             limit := (ProxyQueryOptions.limit
               { limit := some 2, offset := some 3 }).getD 100,
             offset := (ProxyQueryOptions.offset
               { limit := some 2, offset := some 3 }).getD 0,
             hasMore := ([[("Id", ())], [("domain", ())]] :
               List (Entity Unit)).length ==
                 (ProxyQueryOptions.limit
                   { limit := some 2, offset := some 3 }).getD 100 } :=
  C8_amended_pagination_and_hasMore .customers
    { limit := some 2, offset := some 3 }
    { realmId := "realm-1", accessToken := "tok", refreshToken := "rt",
      accessExpiresAt := some 1000000000, status := .active, is_active := true }
    0
    (fun _ _ _ =>
      (⟨200, { entities := some [[("Id", ())], [("domain", ())]] }⟩ :
        UpstreamResponse (QueryBody Unit)))
    (fun _ => .failure "x")
    [[("Id", ())], [("domain", ())]]
    (by decide) rfl (by decide) (by decide) (by decide) (by decide) rfl

end QboMapper
